import Mathlib

/-!
Verification development for the Sgiach front-end repository.

The repository is a set of static pages with inline browser scripts:
a building-placement sandbox (drag/drop grid snapping, placement
validation, development-plan export), a landing page that calls an
analysis API with a hard-coded fallback (performAnalysis, getTestData,
checkAPIConnection, createPropertyCard, exportCSV, newSearch), and a
mapping module (exportAnalysisReport, requestProfessionalValidation).

Shallow embedding conventions:
- JavaScript numbers are modelled as rationals where they can be
  fractional, and as integers where the source only ever holds integers.
- DOM side effects (appended elements, alerts, console output, toasts,
  file downloads) are modelled as explicit data returned by each
  operation.
- fetch outcomes are modelled as an explicit outcome type; the browser
  clock is passed in as an explicit string parameter wherever the source
  reads the current date.
-/

/-- ECMAScript Math.round on an exact rational value: round half toward
positive infinity, i.e. the floor of the value plus one half. -/
def jsRound (q : ℚ) : ℤ :=
  ⌊q + 1 / 2⌋

/-- Smallest exponent k with at most six digits such that d divides 10^k,
used to render terminating decimals the way ECMAScript ToString does. -/
def decExp (d : ℕ) : Option ℕ :=
  (List.range 7).find? (fun k => decide (d ∣ 10 ^ k))

/-- Left-pad a string with zeros to the given length. -/
def padZeros (k : ℕ) (s : String) : String :=
  String.mk (List.replicate (k - s.length) '0') ++ s

/-- ECMAScript ToString for a JS number modelled as a rational, covering
the terminating decimal values that occur in this code base. -/
def jsNumStr (q : ℚ) : String :=
  match decExp q.den with
  | some 0 => toString q.num
  | some (k + 1) =>
    let sign := if q.num < 0 then "-" else ""
    let scaled := q.num.natAbs * (10 ^ (k + 1) / q.den)
    sign ++ toString (scaled / 10 ^ (k + 1)) ++ "." ++
      padZeros (k + 1) (toString (scaled % 10 ^ (k + 1)))
  | none => toString q.num ++ "/" ++ toString q.den

/-- A toast notification as appended by showMessage(text, type). -/
structure Toast where
  text : String
  kind : String
deriving DecidableEq

/-- A browser file download as triggered by downloadFile(content,
filename, type). -/
structure FileDownload where
  content : String
  filename : String
  type : String
deriving DecidableEq

/-! ## Building placement grid (building-placement page script)

Source: the inline script of the building-placement page, embedded in
src/static/js/sgiach-mapping.js: gridSize, the buildingGrid drop
handler, placeBuilding, showConstraintWarning, the dblclick removal
listener and exportDevelopment. -/

/-- Source: const gridSize = 30. -/
def gridSize : ℤ := 30

/-- Snap a raw drop coordinate to the grid, exactly as the drop handler
computes Math.round(x / gridSize) * gridSize. -/
def snap (x : ℚ) : ℤ :=
  jsRound (x / (gridSize : ℚ)) * gridSize

/-- A palette building item: dataset.building and the two parseInt
components of dataset.size. -/
structure BuildingItem where
  building : String
  width : ℤ
  height : ℤ
deriving DecidableEq

/-- A record of the placedBuildings array. The DOM element created by
placeBuilding is modelled by a fresh numeric identifier elemId. -/
structure PlacedBuilding where
  elemId : ℕ
  x : ℤ
  y : ℤ
  width : ℤ
  height : ℤ
  type : String
deriving DecidableEq

/-- The mutable state of the placement script: the placedBuildings array
plus a counter supplying fresh DOM-element identities. -/
structure GridState where
  nextId : ℕ
  buildings : List PlacedBuilding
deriving DecidableEq

/-- Initial state: no buildings placed. -/
def initGridState : GridState :=
  { nextId := 0, buildings := [] }

/-- The buildable-area rectangle as measured by the drop handler:
buildableRect.left/top relative to the grid plus width and height. -/
structure BuildableRect where
  x : ℚ
  y : ℚ
  width : ℚ
  height : ℚ
deriving DecidableEq

/-- The drop handler's validity condition, verbatim:
snappedX >= buildableX AND snappedY >= buildableY AND
snappedX + width <= buildableX + buildableWidth AND
snappedY + height <= buildableY + buildableHeight. -/
def withinBuildable (r : BuildableRect) (sx sy w h : ℤ) : Prop :=
  r.x ≤ (sx : ℚ) ∧ r.y ≤ (sy : ℚ) ∧
    (sx : ℚ) + (w : ℚ) ≤ r.x + r.width ∧ (sy : ℚ) + (h : ℚ) ≤ r.y + r.height

instance (r : BuildableRect) (sx sy w h : ℤ) :
    Decidable (withinBuildable r sx sy w h) :=
  inferInstanceAs (Decidable (_ ≤ _ ∧ _ ≤ _ ∧ _ ≤ _ ∧ _ ≤ _))

/-- Source function placeBuilding(x, y, width, height, type): creates a
DOM element and pushes a record onto placedBuildings. -/
def placeBuilding (s : GridState) (x y w h : ℤ) (ty : String) : GridState :=
  { nextId := s.nextId + 1,
    buildings := s.buildings ++
      [{ elemId := s.nextId, x := x, y := y, width := w, height := h, type := ty }] }

/-- Remove the first list element satisfying the predicate, leaving the
list unchanged when none does: the combined effect of findIndex followed
by splice(index, 1) (findIndex returning -1 skips the splice). -/
def spliceFirst (p : PlacedBuilding → Bool) : List PlacedBuilding → List PlacedBuilding
  | [] => []
  | b :: rest => if p b then rest else b :: spliceFirst p rest

/-- The dblclick removal listener of a placed element: remove the DOM
element, find the first record whose element matches, and splice it out
when found. -/
def removeBuilding (s : GridState) (id : ℕ) : GridState :=
  { s with buildings := spliceFirst (fun b => b.elemId == id) s.buildings }

/-- The buildingGrid drop handler. Inputs: the dragged palette item (if
any), the measured buildable rectangle, and the raw drop coordinates
relative to the grid. Output: the new state and whether
showConstraintWarning fired (the transient rejection warning). -/
def dropHandler (s : GridState) (dragged : Option BuildingItem)
    (r : BuildableRect) (x y : ℚ) : GridState × Bool :=
  match dragged with
  | none => (s, false)
  | some item =>
    let snappedX := snap x
    let snappedY := snap y
    if withinBuildable r snappedX snappedY item.width item.height then
      (placeBuilding s snappedX snappedY item.width item.height item.building, false)
    else
      (s, true)

/-- User events handled by the placement script. -/
inductive GridEvent where
  | drop (dragged : Option BuildingItem) (r : BuildableRect) (x y : ℚ)
  | dblclickRemove (id : ℕ)
deriving DecidableEq

/-- One event step of the placement script. -/
def applyGridEvent (s : GridState) : GridEvent → GridState
  | .drop dragged r x y => (dropHandler s dragged r x y).1
  | .dblclickRemove id => removeBuilding s id

/-- Run a trace of placement events from the initial empty state. -/
def runGridEvents (es : List GridEvent) : GridState :=
  es.foldl applyGridEvent initGridState

/-- All placed records sit on grid multiples. -/
def GridInv (s : GridState) : Prop :=
  ∀ b ∈ s.buildings, (30 : ℤ) ∣ b.x ∧ (30 : ℤ) ∣ b.y

/-! ## Development-plan export (exportDevelopment) -/

/-- The position object written by exportDevelopment. -/
structure DevPosition where
  x : ℤ
  y : ℤ
deriving DecidableEq

/-- The dimensions object written by exportDevelopment. -/
structure DevDimensions where
  width : ℤ
  height : ℤ
deriving DecidableEq

/-- One serialized placed building: type, position, dimensions. -/
structure DevExportRecord where
  type : String
  position : DevPosition
  dimensions : DevDimensions
deriving DecidableEq

/-- The developmentData object built by exportDevelopment. -/
structure DevelopmentData where
  placedBuildings : List DevExportRecord
  timestamp : String
deriving DecidableEq

/-- The observable outcome of exportDevelopment: the serialized data
object, any file download it triggers, and its alert and console
output. -/
structure ExportDevelopmentResult where
  data : DevelopmentData
  download : Option FileDownload
  alerts : List String
  consoleLogs : List String
deriving DecidableEq

/-- Source function exportDevelopment: builds developmentData from the
placedBuildings array, logs it, and shows a summary alert. It triggers
no download (the comment in the source defers API integration). -/
def exportDevelopment (pbs : List PlacedBuilding) (now : String) :
    ExportDevelopmentResult :=
  let developmentData : DevelopmentData :=
    { placedBuildings := pbs.map (fun b =>
        { type := b.type, position := { x := b.x, y := b.y },
          dimensions := { width := b.width, height := b.height } }),
      timestamp := now }
  { data := developmentData,
    download := none,
    alerts := ["Development Plan exported successfully!\n\nBuildings placed: " ++
      toString pbs.length ++
      "\n\nThis would normally send the plan to your Sgiach platform for cost analysis and feasibility assessment."],
    consoleLogs := ["Exporting Development Plan:"] }

/-- The plain tuple of claim C8: type, x, y, width, height. -/
structure BuildingTuple where
  type : String
  x : ℤ
  y : ℤ
  width : ℤ
  height : ℤ
deriving DecidableEq

/-- The tuple carried by an in-memory placed building. -/
def placedTuple (b : PlacedBuilding) : BuildingTuple :=
  { type := b.type, x := b.x, y := b.y, width := b.width, height := b.height }

/-- The tuple recovered by parsing one serialized record back. -/
def exportedTuple (e : DevExportRecord) : BuildingTuple :=
  { type := e.type, x := e.position.x, y := e.position.y,
    width := e.dimensions.width, height := e.dimensions.height }

/-! ## Landing page data model (sgiach-app.html script) -/

/-- The search_criteria part of the form payload (getFormData). -/
structure SearchCriteria where
  city : String
  province : String
  min_price : ℤ
  max_price : ℤ
deriving DecidableEq

/-- The preferences part of the form payload (getFormData). -/
structure Preferences where
  risk_tolerance : ℚ
  min_roi_threshold : ℚ
  preferred_property_types : List String
  max_development_timeline_months : ℤ
deriving DecidableEq

/-- The analysis request payload built by getFormData. -/
structure FormData where
  search_criteria : SearchCriteria
  preferences : Preferences
deriving DecidableEq

/-- The financial_analysis record of a development scenario. -/
structure FinancialAnalysis where
  total_development_cost : ℤ
  projected_value : ℤ
  roi_percentage : ℚ
  payback_period_months : ℤ
  net_profit : ℤ
deriving DecidableEq

/-- One development scenario of an opportunity. -/
structure ScenarioData where
  type : String
  description : String
  zoning_compliance : String
  financial_analysis : FinancialAnalysis
  timeline_months : ℤ
  risk_score : ℚ
deriving DecidableEq

/-- The property record of an opportunity. -/
structure PropertyInfo where
  address : String
  price : ℤ
  lot_size : ℚ
  zoning : String
  source : String
deriving DecidableEq

/-- One ranked opportunity of an analysis response. -/
structure Opportunity where
  property : PropertyInfo
  scenarios : List ScenarioData
  score : ℚ
deriving DecidableEq

/-- The summary block of an analysis response. -/
structure AnalysisSummary where
  total_properties_found : ℤ
  properties_analyzed : ℤ
  avg_roi : ℚ
  top_opportunity_roi : ℚ
deriving DecidableEq

/-- A full analysis response as consumed by displayResults/exportCSV. -/
structure AnalysisData where
  summary : AnalysisSummary
  opportunities : List Opportunity
  analysis_timestamp : String
  data_sources : List String
deriving DecidableEq

/-- First hard-coded opportunity of getTestData. -/
def testOpportunityMidRise : Opportunity :=
  { property :=
      { address := "10542 82 Avenue NW, Edmonton, AB", price := 850000,
        lot_size := 0.12, zoning := "RA7", source := "Realtor.ca" },
    scenarios :=
      [{ type := "Mid-Rise Apartment",
         description := "4-story, 24-unit residential building with ground floor commercial",
         zoning_compliance := "RA7 - Compliant",
         financial_analysis :=
           { total_development_cost := 2400000, projected_value := 3200000,
             roi_percentage := 33.3, payback_period_months := 22,
             net_profit := 800000 },
         timeline_months := 18, risk_score := 0.4 }],
    score := 8.7 }

/-- Second hard-coded opportunity of getTestData. -/
def testOpportunityMixedUse : Opportunity :=
  { property :=
      { address := "8720 118 Avenue NW, Edmonton, AB", price := 1200000,
        lot_size := 0.18, zoning := "CB1", source := "Kijiji" },
    scenarios :=
      [{ type := "Mixed-Use Development",
         description := "3-story mixed-use with retail and office space",
         zoning_compliance := "CB1 - Compliant",
         financial_analysis :=
           { total_development_cost := 3800000, projected_value := 4900000,
             roi_percentage := 28.9, payback_period_months := 26,
             net_profit := 1100000 },
         timeline_months := 24, risk_score := 0.5 }],
    score := 8.2 }

/-- Source function getTestData(formData): the deterministic hard-coded
substitute analysis result. The formData argument is accepted but never
read, exactly as in the source; new Date().toISOString() is the now
parameter. -/
def getTestData (_formData : FormData) (now : String) : AnalysisData :=
  { summary :=
      { total_properties_found := 15, properties_analyzed := 12,
        avg_roi := 28.5, top_opportunity_roi := 45.2 },
    opportunities := [testOpportunityMidRise, testOpportunityMixedUse],
    analysis_timestamp := now,
    data_sources := ["Realtor.ca", "Kijiji", "RealtyLink"] }

/-- Outcome of the fetch of performAnalysis: network rejection, or a
response with an HTTP status and a JSON body parse result. -/
inductive FetchOutcome where
  | networkError (msg : String)
  | response (status : ℕ) (body : Option AnalysisData)
deriving DecidableEq

/-- The try block of performAnalysis: fetch, throw on !response.ok
(API Error: status), parse the body (a parse rejection also throws). -/
def tryPerformAnalysis (o : FetchOutcome) : Except String AnalysisData :=
  match o with
  | .networkError m => .error m
  | .response status body =>
    if 200 ≤ status ∧ status < 300 then
      match body with
      | some d => .ok d
      | none => .error ("body is not valid JSON")
    else .error ("API Error: " ++ toString status)

/-- Source function performAnalysis(formData): any error of the try
block is caught and replaced by getTestData(formData), so the function
always returns an analysis result. -/
def performAnalysis (fd : FormData) (now : String) (o : FetchOutcome) :
    AnalysisData :=
  match tryPerformAnalysis o with
  | .ok d => d
  | .error _ => getTestData fd now

/-! ## Connectivity check (checkAPIConnection) -/

/-- Parsed JSON body of the /health probe: an optional message field. -/
structure HealthBody where
  message : Option String
deriving DecidableEq

/-- Outcome of one GET probe: network rejection, or a response with a
status and a body parse result. -/
inductive ProbeOutcome where
  | netError
  | response (status : ℕ) (body : Option HealthBody)
deriving DecidableEq

/-- The observable outcome of checkAPIConnection: the status element
class, the indicator text, toasts shown, and whether the fallback GET /
probe was issued at all. -/
structure ConnResult where
  statusClass : String
  statusText : String
  toasts : List Toast
  rootProbed : Bool
deriving DecidableEq

/-- The JS expression healthData.message || 'Ready': a missing or empty
(falsy) message falls back to 'Ready'. -/
def messageOrReady (m : Option String) : String :=
  match m with
  | some s => if s = "" then "Ready" else s
  | none => "Ready"

/-- The disconnected outcome: both probes failed, the indicator shows
the disconnected text and an informational toast fires. -/
def apiDisconnected : ConnResult :=
  { statusClass := "api-status disconnected",
    statusText := "API Disconnected - Using Test Data",
    toasts := [{ text := "Cannot connect to Real Estate Analysis API. Using test data for demonstration.",
                 kind := "info" }],
    rootProbed := true }

/-- The catch block of checkAPIConnection: probe GET / and either show
the plain connected text or conclude disconnected. The root body is
never parsed. -/
def fallbackProbe (root : ProbeOutcome) : ConnResult :=
  match root with
  | .netError => apiDisconnected
  | .response status _ =>
    if 200 ≤ status ∧ status < 300 then
      { statusClass := "api-status connected", statusText := "API Connected",
        toasts := [], rootProbed := true }
    else apiDisconnected

/-- Source function checkAPIConnection: probe GET /health; on an ok
status with a parsable body show the connected text with the health
message; any throw (network error, non-ok status, unparsable body)
falls into the catch block probing GET /. -/
def checkAPIConnection (health root : ProbeOutcome) : ConnResult :=
  match health with
  | .netError => fallbackProbe root
  | .response status body =>
    if 200 ≤ status ∧ status < 300 then
      match body with
      | some hb =>
        { statusClass := "api-status connected",
          statusText := "API Connected - " ++ messageOrReady hb.message,
          toasts := [], rootProbed := false }
      | none => fallbackProbe root
    else fallbackProbe root

/-- The /health probe fails (throws inside the try block). -/
def healthProbeFails : ProbeOutcome → Prop
  | .netError => True
  | .response status body => ¬ (200 ≤ status ∧ status < 300) ∨ body = none

/-- The fallback GET / probe fails. -/
def rootProbeFails : ProbeOutcome → Prop
  | .netError => True
  | .response status _ => ¬ (200 ≤ status ∧ status < 300)

/-! ## Property cards (createPropertyCard) -/

/-- One scenario-card block of a rendered property card: the metrics it
displays. The divisions cost / 1000000 and profit / 1000 are kept as
exact rationals; the toFixed display formatting is presentational. -/
structure ScenarioBlock where
  type : String
  description : String
  roi_percentage : ℚ
  timeline_months : ℤ
  investment_millions : ℚ
  net_profit_thousands : ℚ
deriving DecidableEq

/-- A rendered property card: header data plus one scenario block per
entry of the scenarios grid. -/
structure PropertyCard where
  title : String
  price : ℤ
  scenarioBlocks : List ScenarioBlock
deriving DecidableEq

/-- The metrics block rendered for one scenario inside the card's
scenarios grid. -/
def scenarioBlockOf (sc : ScenarioData) : ScenarioBlock :=
  { type := sc.type, description := sc.description,
    roi_percentage := sc.financial_analysis.roi_percentage,
    timeline_months := sc.timeline_months,
    investment_millions := (sc.financial_analysis.total_development_cost : ℚ) / 1000000,
    net_profit_thousands := (sc.financial_analysis.net_profit : ℚ) / 1000 }

/-- Source function createPropertyCard(opportunity, rank): the header
shows the rank and address; the scenarios grid maps over ALL of
opportunity.scenarios, one metrics block per scenario (the declared
mainScenario = opportunity.scenarios[0] is never used). -/
def createPropertyCard (opp : Opportunity) (rank : ℕ) : PropertyCard :=
  { title := "#" ++ toString rank ++ " - " ++ opp.property.address,
    price := opp.property.price,
    scenarioBlocks := opp.scenarios.map scenarioBlockOf }

/-- A two-scenario opportunity assembled from the two hard-coded test
scenarios, used to exercise multi-scenario rendering. -/
def twoScenarioOpp : Opportunity :=
  { property := testOpportunityMidRise.property,
    scenarios := testOpportunityMidRise.scenarios ++ testOpportunityMixedUse.scenarios,
    score := 8.7 }

/-! ## CSV export, state reset (exportCSV, newSearch) -/

/-- A scenario record standing for the undefined opp.scenarios[0] of an
opportunity with an empty scenarios array (where the source would throw
a TypeError); theorems about exportCSV assume nonempty scenarios. -/
def emptyScenarioData : ScenarioData :=
  { type := "", description := "", zoning_compliance := "",
    financial_analysis :=
      { total_development_cost := 0, projected_value := 0, roi_percentage := 0,
        payback_period_months := 0, net_profit := 0 },
    timeline_months := 0, risk_score := 0 }

/-- The fixed CSV header row, newline included. -/
def csvHeader : String :=
  "Rank,Address,Price,Zoning,ROI,Timeline,Investment,Profit\n"

/-- One CSV data row as appended per opportunity: 1-based rank, the
address wrapped in double quotes, and the remaining fields taken from
the property and the first scenario, comma separated, newline
terminated, with no further escaping. -/
def csvRow (rank1 : ℕ) (opp : Opportunity) : String :=
  let prop := opp.property
  let sc := opp.scenarios.headD emptyScenarioData
  let fa := sc.financial_analysis
  toString rank1 ++ ",\"" ++ prop.address ++ "\"," ++ toString prop.price ++
    "," ++ prop.zoning ++ "," ++ jsNumStr fa.roi_percentage ++ "," ++
    toString sc.timeline_months ++ "," ++ toString fa.total_development_cost ++
    "," ++ toString fa.net_profit ++ "\n"

/-- The forEach loop of exportCSV appending one row per opportunity,
carrying the running index. -/
def csvBody : ℕ → List Opportunity → String
  | _, [] => ""
  | i, opp :: rest => csvRow (i + 1) opp ++ csvBody (i + 1) rest

/-- The data rows of the CSV as a list, one entry per opportunity. -/
def csvRows : ℕ → List Opportunity → List String
  | _, [] => []
  | i, opp :: rest => csvRow (i + 1) opp :: csvRows (i + 1) rest

/-- The full CSV text built by exportCSV. -/
def csvString (d : AnalysisData) : String :=
  csvHeader ++ csvBody 0 d.opportunities

/-- The landing page state touched by exportCSV/newSearch: the single
current analysis result and whether the results container is shown. -/
structure AppState where
  currentAnalysisData : Option AnalysisData
  resultsVisible : Bool
deriving DecidableEq

/-- Source function exportCSV: bail out when no currentAnalysisData is
held; otherwise download the CSV text and toast a success message. The
state itself is never modified. -/
def exportCSV (st : AppState) :
    AppState × Option FileDownload × List Toast :=
  match st.currentAnalysisData with
  | none => (st, none, [])
  | some d =>
    (st,
      some { content := csvString d, filename := "sgiach-analysis.csv",
             type := "text/csv" },
      [{ text := "Analysis exported to CSV successfully!", kind := "success" }])

/-- Source function newSearch: hide the results container and null out
the current analysis data. -/
def newSearch (_st : AppState) : AppState :=
  { currentAnalysisData := none, resultsVisible := false }

/-- A concrete form payload used by concrete instantiations. -/
def sampleFormData : FormData :=
  { search_criteria :=
      { city := "Edmonton", province := "AB", min_price := 100000,
        max_price := 2000000 },
    preferences :=
      { risk_tolerance := 0.5, min_roi_threshold := 15,
        preferred_property_types := ["residential"],
        max_development_timeline_months := 36 } }

/-- The hard-coded analysis result at a fixed timestamp. -/
def testAnalysisData : AnalysisData :=
  getTestData sampleFormData "2025-01-01T00:00:00.000Z"

/-- A state holding the hard-coded analysis result. -/
def testAnalysisState : AppState :=
  { currentAnalysisData := some testAnalysisData, resultsVisible := true }

/-! ## Mapping module (sgiach-mapping.js class SgiachMapping) -/

/-- The infrastructure summary of a comprehensive property analysis. -/
structure InfrastructureInfo where
  total_cost_min : ℤ
  total_cost_max : ℤ
  development_timeline : String
deriving DecidableEq

/-- The property_data slice read by exportAnalysisReport. -/
structure MappingPropertyData where
  address : String
  infrastructure : InfrastructureInfo
deriving DecidableEq

/-- The currentProperty analysis held by the mapping class. -/
structure PropertyAnalysis where
  property_data : MappingPropertyData
  professional_summary : String
deriving DecidableEq

/-- The reportData object serialized by exportAnalysisReport. -/
structure AnalysisReport where
  property : String
  analysis_date : String
  infrastructure_summary : InfrastructureInfo
  professional_summary : String
deriving DecidableEq

/-- The JSON blob download triggered by exportAnalysisReport. -/
structure ReportDownload where
  report : AnalysisReport
  filename : String
deriving DecidableEq

/-- Source method exportAnalysisReport: return immediately when no
currentProperty is held, otherwise build reportData and trigger a JSON
blob download named with Date.now() (the nowMs parameter). -/
def exportAnalysisReport (currentProperty : Option PropertyAnalysis)
    (now nowMs : String) : Option ReportDownload :=
  match currentProperty with
  | none => none
  | some p =>
    some
      { report :=
          { property := p.property_data.address, analysis_date := now,
            infrastructure_summary := p.property_data.infrastructure,
            professional_summary := p.professional_summary },
        filename := "sgiach-analysis-" ++ nowMs ++ ".json" }

/-! ## Professional validation request (requestProfessionalValidation) -/

/-- The validation_request object of a validation response. -/
structure ValidationRequestInfo where
  request_id : String
deriving DecidableEq

/-- Parsed JSON body of the validation-request response; the
validation_request field may be absent. -/
structure ValidationBody where
  validation_request : Option ValidationRequestInfo
deriving DecidableEq

/-- Outcome of the validation-request fetch: network rejection, or a
response whose body may fail to parse. The response status is never
inspected by the source. -/
inductive ValidationOutcome where
  | netError
  | response (body : Option ValidationBody)
deriving DecidableEq

/-- The user-visible effects of requestProfessionalValidation. -/
structure ValidationEffects where
  alerts : List String
  consoleErrors : List String
deriving DecidableEq

/-- Source function requestProfessionalValidation: on a successful round
trip it alerts with the returned request id; every failure (network
error, unparsable JSON, or a missing validation_request field, which
throws a TypeError when request_id is read) is caught and only logged
via console.error. -/
def requestProfessionalValidation (o : ValidationOutcome) : ValidationEffects :=
  match o with
  | .netError => { alerts := [], consoleErrors := ["Validation request failed:"] }
  | .response none => { alerts := [], consoleErrors := ["Validation request failed:"] }
  | .response (some b) =>
    match b.validation_request with
    | none => { alerts := [], consoleErrors := ["Validation request failed:"] }
    | some vr =>
      { alerts := ["Professional validation requested! Request ID: " ++ vr.request_id],
        consoleErrors := [] }

/-- The validation-request call fails (any caught error path). -/
def validationCallFails : ValidationOutcome → Prop
  | .netError => True
  | .response none => True
  | .response (some b) => b.validation_request = none

/-! ## Theorems -/

/-- The snapped value is always a multiple of the grid unit. -/
lemma snap_dvd_grid (x : ℚ) : (30 : ℤ) ∣ snap x :=
  ⟨jsRound (x / (30 : ℚ)), by simp [snap, gridSize, mul_comm]⟩

/-- Claim C2: each snapped coordinate is an exact multiple of the grid
unit 30, and lies within 15 = 30 / 2 of the raw coordinate. -/
theorem snap_multiple_and_close (x : ℚ) :
    (30 : ℤ) ∣ snap x ∧ |((snap x : ℤ) : ℚ) - x| ≤ 15 := by
  constructor
  · exact snap_dvd_grid x
  · have hfl : ((⌊x / 30 + 1 / 2⌋ : ℤ) : ℚ) ≤ x / 30 + 1 / 2 := Int.floor_le _
    have hfg : x / 30 + 1 / 2 < (⌊x / 30 + 1 / 2⌋ : ℤ) + 1 := Int.lt_floor_add_one _
    have hs : ((snap x : ℤ) : ℚ) = ((⌊x / 30 + 1 / 2⌋ : ℤ) : ℚ) * 30 := by
      simp [snap, jsRound, gridSize]
    rw [hs, abs_le]
    constructor <;> nlinarith [hfl, hfg]

/-- Claim C1: with a dragged item in hand, a record is appended iff the
snapped footprint lies inside the buildable rectangle; on success the
snapped record is appended and no warning fires, on failure the state is
unchanged and the rejection warning fires. -/
theorem drop_place_iff_within (s : GridState) (item : BuildingItem)
    (r : BuildableRect) (x y : ℚ) :
    ((∃ b, (dropHandler s (some item) r x y).1.buildings = s.buildings ++ [b]) ↔
      withinBuildable r (snap x) (snap y) item.width item.height) ∧
    (withinBuildable r (snap x) (snap y) item.width item.height →
      (dropHandler s (some item) r x y).1.buildings = s.buildings ++
        [{ elemId := s.nextId, x := snap x, y := snap y, width := item.width,
           height := item.height, type := item.building }] ∧
      (dropHandler s (some item) r x y).2 = false) ∧
    (¬ withinBuildable r (snap x) (snap y) item.width item.height →
      (dropHandler s (some item) r x y).1 = s ∧
      (dropHandler s (some item) r x y).2 = true) := by
  by_cases h : withinBuildable r (snap x) (snap y) item.width item.height
  · refine ⟨⟨fun _ => h, fun _ => ?_⟩, fun _ => ⟨?_, ?_⟩, fun hn => absurd h hn⟩
    all_goals simp [dropHandler, placeBuilding, h]
  · refine ⟨⟨fun hex => ?_, fun hw => absurd hw h⟩, fun hw => absurd hw h,
      fun _ => by simp [dropHandler, h]⟩
    obtain ⟨b, hb⟩ := hex
    simp [dropHandler, h] at hb

unseal Rat.add Rat.mul Rat.inv Rat.sub in
/-- Concrete instance of the placement claim: the spec scenario of a
120 by 80 single-family item dropped at raw point (85, 95) inside an
80-inset buildable rectangle snaps to (90, 90) and is recorded. -/
theorem drop_place_iff_within_witness :
    withinBuildable ⟨80, 80, 440, 440⟩ (snap 85) (snap 95) 120 80 ∧
    ((dropHandler initGridState (some ⟨"single-family", 120, 80⟩)
        ⟨80, 80, 440, 440⟩ 85 95).1.buildings =
      initGridState.buildings ++
        [{ elemId := initGridState.nextId, x := snap 85, y := snap 95,
           width := 120, height := 80, type := "single-family" }] ∧
      (dropHandler initGridState (some ⟨"single-family", 120, 80⟩)
        ⟨80, 80, 440, 440⟩ 85 95).2 = false) :=
  ⟨by decide,
    (drop_place_iff_within initGridState ⟨"single-family", 120, 80⟩
      ⟨80, 80, 440, 440⟩ 85 95).2.1 (by decide)⟩

/-- Counterexample to claim C8: at a concrete one-building state, the
development-plan export triggers no file download at all, so no
downloadable file exists to parse back. -/
theorem exportDevelopment_no_download :
    (exportDevelopment
      [{ elemId := 0, x := 90, y := 90, width := 120, height := 80,
         type := "single-family" }]
      "2025-01-01T00:00:00.000Z").download = none := by
  rfl

/-- Amended claim C8: exportDevelopment serializes the full collection
into the in-memory developmentData object, and reading those records
back yields exactly the in-memory {type, x, y, width, height} tuples in
order; but it triggers no file download. -/
theorem exportDevelopment_roundtrip (pbs : List PlacedBuilding) (now : String) :
    (exportDevelopment pbs now).download = none ∧
    ((exportDevelopment pbs now).data.placedBuildings).map exportedTuple =
      pbs.map placedTuple := by
  refine ⟨rfl, ?_⟩
  show (pbs.map _).map exportedTuple = pbs.map placedTuple
  rw [List.map_map]
  rfl

/-- Membership survives spliceFirst: removing one element never adds. -/
lemma mem_of_mem_spliceFirst (p : PlacedBuilding → Bool)
    (l : List PlacedBuilding) (b : PlacedBuilding)
    (hb : b ∈ spliceFirst p l) : b ∈ l := by
  induction l with
  | nil => simp [spliceFirst] at hb
  | cons a l ih =>
    cases hpa : p a with
    | true =>
      rw [spliceFirst, hpa, if_pos rfl] at hb
      exact List.mem_cons_of_mem a hb
    | false =>
      rw [spliceFirst, hpa] at hb
      simp only [Bool.false_eq_true, if_false, List.mem_cons] at hb
      rcases hb with hb | hb
      · exact hb ▸ List.mem_cons_self a l
      · exact List.mem_cons_of_mem a (ih hb)

/-- One event step preserves the grid-multiple invariant. -/
lemma gridInv_step (s : GridState) (e : GridEvent) (h : GridInv s) :
    GridInv (applyGridEvent s e) := by
  cases e with
  | drop dragged r x y =>
    cases dragged with
    | none => exact h
    | some item =>
      by_cases hw : withinBuildable r (snap x) (snap y) item.width item.height
      · intro b hb
        simp only [applyGridEvent, dropHandler, hw, if_true, placeBuilding,
          List.mem_append, List.mem_singleton] at hb
        rcases hb with hb | hb
        · exact h b hb
        · subst hb
          exact ⟨snap_dvd_grid x, snap_dvd_grid y⟩
      · intro b hb
        simp only [applyGridEvent, dropHandler, hw, if_false] at hb
        exact h b hb
  | dblclickRemove id =>
    intro b hb
    exact h b (mem_of_mem_spliceFirst _ _ _ hb)

/-- spliceFirst either leaves the list untouched (no match) or removes
exactly the first matching element, keeping all others in order. -/
lemma spliceFirst_spec (p : PlacedBuilding → Bool) (l : List PlacedBuilding) :
    ((∀ b ∈ l, p b = false) ∧ spliceFirst p l = l) ∨
    (∃ l1 r l2, l = l1 ++ r :: l2 ∧ p r = true ∧ (∀ b ∈ l1, p b = false) ∧
      spliceFirst p l = l1 ++ l2) := by
  induction l with
  | nil => exact Or.inl ⟨by simp, rfl⟩
  | cons a l ih =>
    by_cases hpa : p a
    · exact Or.inr ⟨[], a, l, rfl, hpa, by simp, by simp [spliceFirst, hpa]⟩
    · rcases ih with ⟨hall, heq⟩ | ⟨l1, r, l2, hsplit, hr, hl1, heq⟩
      · refine Or.inl ⟨?_, by simp [spliceFirst, hpa, heq]⟩
        intro b hb
        rcases List.mem_cons.mp hb with hb | hb
        · exact hb ▸ Bool.eq_false_iff.mpr hpa
        · exact hall b hb
      · refine Or.inr ⟨a :: l1, r, l2, by simp [hsplit], hr, ?_, ?_⟩
        · intro b hb
          rcases List.mem_cons.mp hb with hb | hb
          · exact hb ▸ Bool.eq_false_iff.mpr hpa
          · exact hl1 b hb
        · simp [spliceFirst, hpa, heq]

/-- Claim C9: along any event trace from the empty grid, every record in
the placed-buildings collection has coordinates that are multiples of
30; and removal deletes exactly one matching record, leaving all other
records unchanged (or nothing when no record matches). -/
theorem placedBuildings_invariant :
    (∀ (es : List GridEvent), ∀ b ∈ (runGridEvents es).buildings,
      (30 : ℤ) ∣ b.x ∧ (30 : ℤ) ∣ b.y) ∧
    (∀ (s : GridState) (id : ℕ),
      ((∀ b ∈ s.buildings, b.elemId ≠ id) ∧ removeBuilding s id = s) ∨
      (∃ l1 r l2, s.buildings = l1 ++ r :: l2 ∧ r.elemId = id ∧
        (∀ b ∈ l1, b.elemId ≠ id) ∧
        (removeBuilding s id).buildings = l1 ++ l2)) := by
  constructor
  · intro es
    have main : ∀ (es : List GridEvent) (s : GridState), GridInv s →
        GridInv (es.foldl applyGridEvent s) := by
      intro es
      induction es with
      | nil => exact fun s h => h
      | cons e es ih => exact fun s h => ih _ (gridInv_step s e h)
    exact main es initGridState (by intro b hb; simp [initGridState] at hb)
  · intro s id
    rcases spliceFirst_spec (fun b => b.elemId == id) s.buildings with
      ⟨hall, heq⟩ | ⟨l1, r, l2, hsplit, hr, hl1, heq⟩
    · refine Or.inl ⟨?_, ?_⟩
      · intro b hb
        simpa using hall b hb
      · show { s with buildings := _ } = s
        rw [heq]
    · refine Or.inr ⟨l1, r, l2, hsplit, by simpa using hr, ?_, heq⟩
      intro b hb
      simpa using hl1 b hb

unseal Rat.add Rat.mul Rat.inv Rat.sub in
/-- Concrete instance of the invariant: the one-drop trace of the spec
scenario yields a record at (90, 90), whose coordinates the claim
divides by 30. -/
theorem placedBuildings_invariant_witness :
    ({ elemId := 0, x := 90, y := 90, width := 120, height := 80,
       type := "single-family" } : PlacedBuilding) ∈
      (runGridEvents [.drop (some ⟨"single-family", 120, 80⟩)
        ⟨80, 80, 440, 440⟩ 85 95]).buildings ∧
    ((30 : ℤ) ∣ (90 : ℤ) ∧ (30 : ℤ) ∣ (90 : ℤ)) :=
  ⟨by decide,
    placedBuildings_invariant.1
      [.drop (some ⟨"single-family", 120, 80⟩) ⟨80, 80, 440, 440⟩ 85 95]
      { elemId := 0, x := 90, y := 90, width := 120, height := 80,
        type := "single-family" }
      (by decide)⟩

/-- Claim C3: performAnalysis never propagates an error. Every caught
error path, in particular a network failure and any non-2xx status,
returns getTestData, so the caller always receives an analysis result
(the function is total into AnalysisData by construction). -/
theorem performAnalysis_always_returns (fd : FormData) (now : String) :
    (∀ m, performAnalysis fd now (.networkError m) = getTestData fd now) ∧
    (∀ status body, ¬ (200 ≤ status ∧ status < 300) →
      performAnalysis fd now (.response status body) = getTestData fd now) ∧
    (∀ o e, tryPerformAnalysis o = .error e →
      performAnalysis fd now o = getTestData fd now) := by
  refine ⟨fun m => rfl, ?_, ?_⟩
  · intro status body hns
    simp [performAnalysis, tryPerformAnalysis, hns]
  · intro o e he
    simp [performAnalysis, he]

/-- Concrete instance of the fallback claim: an HTTP 500 response makes
performAnalysis return the hard-coded test data. -/
theorem performAnalysis_always_returns_witness :
    (¬ ((200 : ℕ) ≤ 500 ∧ (500 : ℕ) < 300)) ∧
    performAnalysis sampleFormData "2025-01-01T00:00:00.000Z" (.response 500 none) =
      getTestData sampleFormData "2025-01-01T00:00:00.000Z" :=
  ⟨by decide,
    (performAnalysis_always_returns sampleFormData
      "2025-01-01T00:00:00.000Z").2.1 500 none (by decide)⟩

/-- Claim C4: a 200 /health response with message Ready yields the
connected-Ready indicator without probing the root endpoint; when both
probes fail the indicator shows the disconnected text and the info toast
fires; and the root endpoint is probed only after the health probe
failed. -/
theorem checkAPIConnection_spec :
    (∀ root, checkAPIConnection (.response 200 (some { message := some "Ready" })) root =
      { statusClass := "api-status connected",
        statusText := "API Connected - Ready", toasts := [], rootProbed := false }) ∧
    (∀ h r, healthProbeFails h → rootProbeFails r →
      checkAPIConnection h r = apiDisconnected) ∧
    (∀ h r, (checkAPIConnection h r).rootProbed = true → healthProbeFails h) := by
  refine ⟨fun root => rfl, ?_, ?_⟩
  · intro h r hh hr
    have hfb : fallbackProbe r = apiDisconnected := by
      cases r with
      | netError => rfl
      | response s b =>
        simp only [rootProbeFails] at hr
        simp [fallbackProbe, hr]
    cases h with
    | netError => exact hfb
    | response s b =>
      simp only [healthProbeFails] at hh
      rcases hh with hh | hh
      · simp [checkAPIConnection, hh, hfb]
      · subst hh
        by_cases hok : 200 ≤ s ∧ s < 300
        · simp [checkAPIConnection, hok, hfb]
        · simp [checkAPIConnection, hok, hfb]
  · intro h r hrp
    cases h with
    | netError => trivial
    | response s b =>
      by_cases hok : 200 ≤ s ∧ s < 300
      · cases b with
        | none => exact Or.inr rfl
        | some hb =>
          exfalso
          simp [checkAPIConnection, hok] at hrp
      · exact Or.inl hok

/-- Concrete instance of the double-failure scenario: both probes are
network errors, so the disconnected indicator and info toast appear. -/
theorem checkAPIConnection_spec_witness :
    healthProbeFails .netError ∧ rootProbeFails .netError ∧
    checkAPIConnection .netError .netError = apiDisconnected :=
  ⟨trivial, trivial, checkAPIConnection_spec.2.1 .netError .netError trivial trivial⟩

unseal Rat.ofScientific in
/-- Counterexample to claim C5: a card built for an opportunity with two
scenarios renders metric blocks for both scenarios (ROI values 33.3 and
28.9), so it does not contain only the first scenario's metrics. -/
theorem createPropertyCard_not_only_first :
    ((createPropertyCard twoScenarioOpp 1).scenarioBlocks.map
      (fun blk => blk.roi_percentage)) = [33.3, 28.9] ∧
    ¬ (∀ blk ∈ (createPropertyCard twoScenarioOpp 1).scenarioBlocks,
        blk.roi_percentage =
          (twoScenarioOpp.scenarios.headD
            emptyScenarioData).financial_analysis.roi_percentage) := by
  constructor
  · decide
  · decide

/-- Amended claim C5: the rendered card contains one metrics block per
scenario of the opportunity, in order, each block carrying that
scenario's own ROI, timeline, investment (cost over one million) and
net profit (over one thousand). -/
theorem createPropertyCard_scenario_metrics (opp : Opportunity) (rank : ℕ) :
    (createPropertyCard opp rank).scenarioBlocks = opp.scenarios.map scenarioBlockOf ∧
    (createPropertyCard opp rank).scenarioBlocks.length = opp.scenarios.length ∧
    (createPropertyCard opp rank).scenarioBlocks.map (fun blk => blk.roi_percentage) =
      opp.scenarios.map (fun sc => sc.financial_analysis.roi_percentage) ∧
    (createPropertyCard opp rank).scenarioBlocks.map (fun blk => blk.timeline_months) =
      opp.scenarios.map (fun sc => sc.timeline_months) ∧
    (createPropertyCard opp rank).scenarioBlocks.map (fun blk => blk.investment_millions) =
      opp.scenarios.map
        (fun sc => (sc.financial_analysis.total_development_cost : ℚ) / 1000000) ∧
    (createPropertyCard opp rank).scenarioBlocks.map (fun blk => blk.net_profit_thousands) =
      opp.scenarios.map (fun sc => (sc.financial_analysis.net_profit : ℚ) / 1000) := by
  refine ⟨rfl, by simp [createPropertyCard], ?_, ?_, ?_, ?_⟩
  all_goals
    simp only [createPropertyCard, List.map_map]
  all_goals rfl

/-- Counterexample to claim C6: a network failure of the validation
request produces no alert at all; it is only logged to the console. -/
theorem requestProfessionalValidation_no_alert :
    (requestProfessionalValidation .netError).alerts = [] ∧
    (requestProfessionalValidation .netError).consoleErrors =
      ["Validation request failed:"] :=
  ⟨rfl, rfl⟩

/-- Amended claim C6: on every failing validation-request call the
failure is logged via console.error and no alert is shown; the alert
(naming the request id) fires only on success. -/
theorem requestProfessionalValidation_failure_logged (o : ValidationOutcome)
    (h : validationCallFails o) :
    (requestProfessionalValidation o).alerts = [] ∧
    (requestProfessionalValidation o).consoleErrors =
      ["Validation request failed:"] := by
  cases o with
  | netError => exact ⟨rfl, rfl⟩
  | response body =>
    cases body with
    | none => exact ⟨rfl, rfl⟩
    | some b =>
      have hb : b.validation_request = none := h
      simp [requestProfessionalValidation, hb]

/-- Concrete instance of the amended C6 claim: a parsable response that
lacks the validation_request field throws on field access, which is
caught and logged without any alert. -/
theorem requestProfessionalValidation_failure_logged_witness :
    validationCallFails (.response (some { validation_request := none })) ∧
    ((requestProfessionalValidation
        (.response (some { validation_request := none }))).alerts = [] ∧
      (requestProfessionalValidation
        (.response (some { validation_request := none }))).consoleErrors =
        ["Validation request failed:"]) :=
  ⟨rfl, requestProfessionalValidation_failure_logged
    (.response (some { validation_request := none })) rfl⟩

/-- The csvBody concatenation is the fold of the csvRows list. -/
lemma csvBody_eq_foldr (i : ℕ) (l : List Opportunity) :
    csvBody i l = (csvRows i l).foldr (fun a b => a ++ b) "" := by
  induction l generalizing i with
  | nil => rfl
  | cons opp rest ih => simp [csvBody, csvRows, ih]

/-- csvRows yields exactly one row per opportunity. -/
lemma csvRows_length (i : ℕ) (l : List Opportunity) :
    (csvRows i l).length = l.length := by
  induction l generalizing i with
  | nil => rfl
  | cons opp rest ih => simp [csvRows, ih]

/-- The i-th entry of csvRows is the row of the i-th opportunity with
the correspondingly shifted rank. -/
lemma csvRows_get (l : List Opportunity) (j i : ℕ)
    (h1 : i < l.length) (h2 : i < (csvRows j l).length) :
    (csvRows j l).get ⟨i, h2⟩ = csvRow (j + i + 1) (l.get ⟨i, h1⟩) := by
  induction l generalizing j i with
  | nil => exact absurd h1 (by simp)
  | cons opp rest ih =>
    cases i with
    | zero => simp [csvRows]
    | succ i =>
      have h1r : i < rest.length := by simpa using Nat.lt_of_succ_lt_succ h1
      have h2r : i < (csvRows (j + 1) rest).length := by
        rw [csvRows_length]
        exact h1r
      have step : (csvRows j (opp :: rest)).get ⟨i + 1, h2⟩ =
          (csvRows (j + 1) rest).get ⟨i, h2r⟩ := rfl
      rw [step, ih (j + 1) i h1r h2r]
      congr 1
      omega

/-- Claim C7: with an analysis held, exportCSV downloads a CSV made of
the fixed header followed by exactly one data row per opportunity in
order; each row starts with the 1-based rank, wraps the address in
double quotes with no further escaping, and draws its remaining fields
from the property and the first scenario only. -/
theorem exportCSV_structure (st : AppState) (d : AnalysisData)
    (hd : st.currentAnalysisData = some d)
    (_hs : ∀ opp ∈ d.opportunities, opp.scenarios ≠ []) :
    (csvRows 0 d.opportunities).length = d.opportunities.length ∧
    (∀ i (h1 : i < d.opportunities.length)
        (h2 : i < (csvRows 0 d.opportunities).length),
      (csvRows 0 d.opportunities).get ⟨i, h2⟩ =
        toString (i + 1) ++ ",\"" ++
          (d.opportunities.get ⟨i, h1⟩).property.address ++ "\"," ++
          toString (d.opportunities.get ⟨i, h1⟩).property.price ++ "," ++
          (d.opportunities.get ⟨i, h1⟩).property.zoning ++ "," ++
          jsNumStr ((d.opportunities.get ⟨i, h1⟩).scenarios.headD
            emptyScenarioData).financial_analysis.roi_percentage ++ "," ++
          toString ((d.opportunities.get ⟨i, h1⟩).scenarios.headD
            emptyScenarioData).timeline_months ++ "," ++
          toString ((d.opportunities.get ⟨i, h1⟩).scenarios.headD
            emptyScenarioData).financial_analysis.total_development_cost ++ "," ++
          toString ((d.opportunities.get ⟨i, h1⟩).scenarios.headD
            emptyScenarioData).financial_analysis.net_profit ++ "\n") ∧
    exportCSV st =
      (st,
        some { content := csvHeader ++
                 (csvRows 0 d.opportunities).foldr (fun a b => a ++ b) "",
               filename := "sgiach-analysis.csv", type := "text/csv" },
        [{ text := "Analysis exported to CSV successfully!", kind := "success" }]) := by
  refine ⟨csvRows_length 0 d.opportunities, ?_, ?_⟩
  · intro i h1 h2
    rw [csvRows_get d.opportunities 0 i h1 h2,
      show (0 : ℕ) + i + 1 = i + 1 from by omega]
    rfl
  · simp [exportCSV, hd, csvString, csvBody_eq_foldr]

set_option maxRecDepth 10000 in
unseal Rat.add Rat.mul Rat.inv Rat.sub Rat.ofScientific in
/-- Concrete instance of the CSV claim: the hard-coded two-opportunity
test data (ROI 33.3 and 28.9) yields the header plus exactly two data
rows. -/
theorem exportCSV_structure_witness :
    testAnalysisState.currentAnalysisData = some testAnalysisData ∧
    (∀ opp ∈ testAnalysisData.opportunities, opp.scenarios ≠ []) ∧
    (csvRows 0 testAnalysisData.opportunities).length =
      testAnalysisData.opportunities.length ∧
    testAnalysisData.opportunities.length = 2 ∧
    csvString testAnalysisData =
      "Rank,Address,Price,Zoning,ROI,Timeline,Investment,Profit\n" ++
        ("1,\"10542 82 Avenue NW, Edmonton, AB\",850000,RA7,33.3,18,2400000,800000\n" ++
          "2,\"8720 118 Avenue NW, Edmonton, AB\",1200000,CB1,28.9,24,3800000,1100000\n") :=
  ⟨rfl, by decide,
    (exportCSV_structure testAnalysisState testAnalysisData rfl (by decide)).1,
    by decide, by decide⟩

/-- Claim C10: with no current analysis data held, exportCSV returns the
state unchanged with no download and no toast; exportAnalysisReport with
no current property triggers no download; and newSearch resets the held
analysis to none, after which exportCSV again does nothing. -/
theorem export_without_data (st : AppState) (now nowMs : String)
    (h : st.currentAnalysisData = none) :
    exportCSV st = (st, none, []) ∧
    exportAnalysisReport none now nowMs = none ∧
    (newSearch st).currentAnalysisData = none ∧
    exportCSV (newSearch st) = (newSearch st, none, []) := by
  refine ⟨?_, rfl, rfl, rfl⟩
  simp [exportCSV, h]

/-- Concrete instance of the guard claim at the empty initial state. -/
theorem export_without_data_witness :
    ({ currentAnalysisData := none, resultsVisible := false } : AppState).currentAnalysisData =
      none ∧
    (exportCSV { currentAnalysisData := none, resultsVisible := false } =
        ({ currentAnalysisData := none, resultsVisible := false }, none, []) ∧
      exportAnalysisReport none "2025-01-01T00:00:00.000Z" "1735689600000" = none ∧
      (newSearch { currentAnalysisData := none, resultsVisible := false }).currentAnalysisData =
        none ∧
      exportCSV (newSearch { currentAnalysisData := none, resultsVisible := false }) =
        (newSearch { currentAnalysisData := none, resultsVisible := false }, none, [])) :=
  ⟨rfl,
    export_without_data { currentAnalysisData := none, resultsVisible := false }
      "2025-01-01T00:00:00.000Z" "1735689600000" rfl⟩
